import Mathlib

/-!
Verification of the fal-bundle-manager core against its specification.

Byte strings (Python `bytes` / `str` in UTF-8) are modelled as `List Nat`
(each element a byte value).  SHA-256 itself is an external library call
(`hashlib.sha256`), so every definition is parameterized by an abstract
digest function `sha : List Nat → List Nat`; all structural claims hold
for every such function.  `toySha` is a concrete instantiation used to
evaluate witnesses.
-/

namespace FalBundle

/-- Hex digit byte for a value below 16 (ASCII of `0123456789abcdef`),
modelling Python's `hex()` / `hexdigest()` character set. -/
def hexDigitByte (n : Nat) : Nat :=
  if n < 10 then 48 + n else 87 + n

/-- The two lowercase hex digit bytes of one byte value. -/
def byteToHex (b : Nat) : List Nat :=
  [hexDigitByte (b / 16), hexDigitByte (b % 16)]

/-- Lowercase hex encoding of a byte string, as in `bytes.hex()` /
`hashlib.sha256(...).hexdigest()`. -/
def bytesToHex (bs : List Nat) : List Nat :=
  (bs.map byteToHex).flatten

/-- Byte is one of `0123456789abcdef` (lowercase hex alphabet). -/
def isLowerHexByte (c : Nat) : Bool :=
  (48 ≤ c && c ≤ 57) || (97 ≤ c && c ≤ 102)

/-- Model of `shared.validation.validate_sha256_hash`: the string must be
exactly 64 lowercase hex characters.  The Python function raises
`ValueError` on failure; the model returns `false` there. -/
def validate_sha256_hash (h : List Nat) : Bool :=
  h.length == 64 && h.all isLowerHexByte

/-- Split a byte string on `/` (byte 47), modelling Python's
`path.split("/")`; the result always has at least one (possibly empty)
segment. -/
def splitOnSlash : List Nat → List (List Nat)
  | [] => [[]]
  | c :: rest =>
    if c == 47 then [] :: splitOnSlash rest
    else
      match splitOnSlash rest with
      | [] => [[c]]
      | s :: ss => (c :: s) :: ss

/-- Model of `shared.validation.validate_relative_path`: no leading `/`,
no `..` segment, non-empty. -/
def validate_relative_path (p : List Nat) : Bool :=
  !(p.headD 0 == 47) && !(splitOnSlash p).contains [46, 46] && !p.isEmpty

/-- Model of `shared.types.Blob`: one file entry of a bundle.
`hash_algo` is the literal string "sha256" and is omitted. -/
structure FileEntry where
  bundle_path : List Nat
  size_bytes : Nat
  hash : List Nat
deriving DecidableEq

/-- Non-strict lexicographic order on byte strings, the order Python's
`sorted` uses on `str` keys (UTF-8 byte order coincides with code-point
order). -/
def bytesLe : List Nat → List Nat → Bool
  | [], _ => true
  | _ :: _, [] => false
  | a :: x, b :: y =>
    if a < b then true
    else if b < a then false
    else bytesLe x y

/-- Insert a (path, hash) pair into a list sorted by path, before any
strictly greater path and after equal ones. -/
def insertByPath (p : List Nat × List Nat) :
    List (List Nat × List Nat) → List (List Nat × List Nat)
  | [] => [p]
  | q :: qs => if bytesLe p.1 q.1 then p :: q :: qs else q :: insertByPath p qs

/-- Model of Python's stable `sorted(pairs, key=lambda item: item[0])`
as a stable insertion sort on the path component. -/
def sortByPath : List (List Nat × List Nat) → List (List Nat × List Nat)
  | [] => []
  | p :: ps => insertByPath p (sortByPath ps)

/-- One pairing pass of `shared.merkle.compute_merkle_root` (the list
comprehension over `range(0, len, 2)`): hash each adjacent pair of
digests.  It is only ever applied to even-length lists (the caller
duplicates the last digest first). -/
def pairAdj (sha : List Nat → List Nat) : List (List Nat) → List (List Nat)
  | a :: b :: rest => sha (a ++ b) :: pairAdj sha rest
  | _ => []

/-- The odd-length guard of `compute_merkle_root`: append a copy of the
last digest when the level has odd length. -/
def dupIfOdd (l : List (List Nat)) : List (List Nat) :=
  if l.length % 2 == 1 then l ++ [l.getLastD []] else l

/-- The `while len(leaf_digests) > 1` loop of `compute_merkle_root`,
written with explicit fuel (the initial level length, which bounds the
number of passes: each pass at least halves a level of length ≥ 2). -/
def merkleRounds (sha : List Nat → List Nat) : Nat → List (List Nat) → List (List Nat)
  | 0, l => l
  | fuel + 1, l =>
    if l.length ≤ 1 then l
    else merkleRounds sha fuel (pairAdj sha (dupIfOdd l))

/-- Model of `shared.merkle.compute_merkle_root`: sort the (path, hash)
pairs by path, hash `path ++ ":" ++ hash` into leaf digests (58 is the
byte of `:`), fold levels until one digest remains, and hex-encode it;
an empty collection yields the hex SHA-256 of the empty byte string. -/
def compute_merkle_root (sha : List Nat → List Nat) (blobs : List FileEntry) :
    List Nat :=
  let pairs := sortByPath (blobs.map fun b => (b.bundle_path, b.hash))
  let leaves := pairs.map fun p => sha (p.1 ++ [58] ++ p.2)
  if leaves.isEmpty then bytesToHex (sha [])
  else bytesToHex ((merkleRounds sha leaves.length leaves).headD [])

/-- Modelled from the spec (§4.3 Merkle Engine), for comparison with the
source definition: iteratively pair adjacent digests, duplicating the
last one when a level has odd length, each parent being the digest of
the concatenation; the empty collection is the explicit sentinel
`SHA256("")`, and a single leaf is its own digest (the pairing step runs
only when more than one leaf exists). -/
def specCombine (sha : List Nat → List Nat) : List (List Nat) → List Nat
  | [] => sha []
  | [d] => d
  | a :: b :: rest => specCombine sha (pairAdj sha (dupIfOdd (a :: b :: rest)))
termination_by l => l.length
decreasing_by
  have hp : ∀ n, ∀ m : List (List Nat), m.length ≤ n →
      (pairAdj sha m).length = m.length / 2 := by
    intro n
    induction n with
    | zero =>
      intro m hm
      have hm0 : m = [] := List.length_eq_zero.mp (Nat.le_zero.mp hm)
      subst hm0
      rfl
    | succ n ih =>
      intro m hm
      rcases m with _ | ⟨x, _ | ⟨y, r⟩⟩
      · simp [pairAdj]
      · simp [pairAdj]
      · have hr : r.length ≤ n := by
          simp only [List.length_cons] at hm
          omega
        have hrec := ih r hr
        simp only [pairAdj, List.length_cons, hrec]
        omega
  have hd : (dupIfOdd (a :: b :: rest)).length =
      (a :: b :: rest).length + (a :: b :: rest).length % 2 := by
    simp only [dupIfOdd, beq_iff_eq]
    split
    · rename_i hodd
      simp only [List.length_append, List.length_cons, List.length_nil] at hodd ⊢
      omega
    · rename_i hodd
      simp only [List.length_cons] at hodd ⊢
      omega
  have hlen := hp (dupIfOdd (a :: b :: rest)).length (dupIfOdd (a :: b :: rest)) le_rfl
  simp only [List.length_cons] at hd hlen ⊢
  omega

/-- Modelled from the spec (§4.3): full Merkle root — sort leaves by
path ascending, combine levels, hex-encode the final digest. -/
def specMerkleRoot (sha : List Nat → List Nat) (blobs : List FileEntry) :
    List Nat :=
  bytesToHex (specCombine sha
    ((sortByPath (blobs.map fun b => (b.bundle_path, b.hash))).map
      fun p => sha (p.1 ++ [58] ++ p.2)))

/-! ### Server state and the blob store (`src/api/routes/create_blob.py`,
`src/api/storage.py`) -/

/-- Model of a bundle summary JSON (`bundles/summaries/<id>.json`):
the manifest minus its files list. -/
structure Summary where
  id : List Nat
  created_at : List Nat
  file_count : Nat
  total_bytes : Nat
  merkle_root : List Nat
deriving DecidableEq

/-- Model of a bundle manifest JSON (`bundles/manifests/<id>.json`). -/
structure Manifest where
  id : List Nat
  created_at : List Nat
  files : List FileEntry
  file_count : Nat
  total_bytes : Nat
  merkle_root : List Nat
deriving DecidableEq

/-- Association-list lookup (first binding wins), modelling a directory
of files keyed by name. -/
def assocFind {κ α : Type} [DecidableEq κ] (k : κ) : List (κ × α) → Option α
  | [] => none
  | kv :: rest => if kv.1 = k then some kv.2 else assocFind k rest

/-- Remove every binding of a key, modelling `unlink`. -/
def removeKey {κ α : Type} [DecidableEq κ] (k : κ) (l : List (κ × α)) :
    List (κ × α) :=
  l.filter fun kv => decide (kv.1 ≠ k)

/-- The server's on-disk state: blob files keyed by their 64-hex hash
(the fan-out path is a function of the hash), upload temp files under
`tmp/`, manifest/summary temp files (`<id>.tmp`) and committed
manifest/summary files keyed by bundle id. -/
structure ServerState where
  blobs : List (List Nat × List Nat)
  tmp : List (List Nat × List Nat)
  mtmp : List (List Nat × Manifest)
  manifests : List (List Nat × Manifest)
  stmp : List (List Nat × Summary)
  summaries : List (List Nat × Summary)
deriving DecidableEq

/-- Model of `api.storage.to_blob_path`: the two-level fan-out path
`blobs/<h[0:2]>/<h[2:4]>/<h>` as a list of path segments. -/
def to_blob_path (h : List Nat) : List (List Nat) :=
  [h.take 2, (h.drop 2).take 2, h]

/-- The blob file published at a given fan-out path, if any. -/
def blobFileAt (st : ServerState) (p : List (List Nat)) : Option (List Nat) :=
  assocFind p (st.blobs.map fun kv => (to_blob_path kv.1, kv.2))

/-- Model of `api.storage.blob_exists`: a file exists at the hash's
fan-out path. -/
def blob_exists (st : ServerState) (h : List Nat) : Bool :=
  (blobFileAt st (to_blob_path h)).isSome

/-- Result of `PUT /blobs/hash` (`upload_blob` in
`src/api/routes/create_blob.py`). -/
inductive BlobResult where
  /-- HTTP 201, body status "created". -/
  | createdNew
  /-- HTTP 200, body status "exists". -/
  | alreadyStored
  /-- HTTP 422, hash not 64 lowercase hex. -/
  | invalidHash
  /-- HTTP 413, declared size over the limit. -/
  | tooLarge
  /-- HTTP 409, streamed digest differs from the URL hash. -/
  | hashMismatch
deriving DecidableEq

/-- HTTP status code of each upload outcome. -/
def BlobResult.status : BlobResult → Nat
  | .createdNew => 201
  | .alreadyStored => 200
  | .invalidHash => 422
  | .tooLarge => 413
  | .hashMismatch => 409

/-- Model of the handler body of `upload_blob`
(`src/api/routes/create_blob.py` lines 16-104): validate the hash, check
the declared size against the limit, short-circuit when the blob is
already published, otherwise stream the body to a fresh temp file while
hashing it; on digest mismatch unlink the temp file and fail, on match
rename the temp file to the fan-out path.  `tmpName` stands for the
timestamp-and-uuid temp file name; the body is the concatenation of all
streamed chunks (`size_bytes` is a `Nat` because FastAPI's
`Query(..., ge=0)` rejects negative values before the handler runs).
This function is the handler as WRITTEN, not as served: the module's
line 11, `from shared.config import TMP_DIR, MAX_UPLOAD_BYTES`, raises
`ImportError` because `shared/config.py` defines no `TMP_DIR` (only
`get_tmp_dir()`), so in the shipped program this handler is never
registered — `upload_blob_served` below models the route as shipped. -/
def upload_blob (sha : List Nat → List Nat) (maxUpload : Nat)
    (st : ServerState) (h : List Nat) (size_bytes : Nat)
    (tmpName : List Nat) (body : List Nat) : BlobResult × ServerState :=
  if !validate_sha256_hash h then (.invalidHash, st)
  else if size_bytes > maxUpload then (.tooLarge, st)
  else if blob_exists st h then (.alreadyStored, st)
  else
    let afterStream : ServerState := { st with tmp := (tmpName, body) :: st.tmp }
    if bytesToHex (sha body) ≠ h then
      (.hashMismatch, { afterStream with tmp := removeKey tmpName afterStream.tmp })
    else
      (.createdNew, { afterStream with
        tmp := removeKey tmpName afterStream.tmp,
        blobs := (h, body) :: afterStream.blobs })

/-- Model of the `PUT /blobs/hash` route as shipped.  Loading
`src/api/routes/create_blob.py` raises `ImportError` at its line 11
(`from shared.config import TMP_DIR, MAX_UPLOAD_BYTES`: `shared/config.py`
defines no `TMP_DIR`), and `api/app.py` imports the module at startup,
so no running server ever registers the handler: no request to the route
receives any of the handler's responses.  `none` stands for the absent
handler. -/
def upload_blob_served (_st : ServerState) (_h : List Nat)
    (_size_bytes : Nat) (_tmpName _body : List Nat) :
    Option (BlobResult × ServerState) :=
  none

/-! ### Bundle creation (`src/api/routes/create_bundle.py`) -/

/-- Model of `shared.api_contracts.create_bundle.BundleManifestDraft`:
the request schema has exactly the fields `files`, `hash_algo` (the
literal "sha256", omitted) and `merkle_root` — in particular no `id`
field. -/
structure BundleManifestDraft where
  files : List FileEntry
  merkle_root : List Nat
deriving DecidableEq

/-- The pydantic boundary validation of a draft: every file hash is
64-hex, every path is relative and safe, the merkle root is 64-hex, and
no two files share a path. -/
def draftValid (d : BundleManifestDraft) : Bool :=
  d.files.all (fun f => validate_sha256_hash f.hash && validate_relative_path f.bundle_path)
    && validate_sha256_hash d.merkle_root
    && ((d.files.map fun f => f.bundle_path).dedup.length == d.files.length)

/-- Result of `POST /bundles` (`create_bundle` in
`src/api/routes/create_bundle.py`). -/
inductive BundleResult where
  /-- HTTP 201 with id, created_at, merkle_root. -/
  | bundleCreated (id created_at merkle_root : List Nat)
  /-- HTTP 409, detail lists the absent hashes. -/
  | missingBlobs (hashes : List (List Nat))
  /-- HTTP 409, client and server Merkle roots disagree. -/
  | merkleMismatch
  /-- HTTP 409, client-supplied id already taken. -/
  | idConflict
  /-- HTTP 500, blanket `except Exception` handler. -/
  | storageError
deriving DecidableEq

/-- HTTP status code of each bundle-creation outcome. -/
def BundleResult.status : BundleResult → Nat
  | .bundleCreated _ _ _ => 201
  | .missingBlobs _ => 409
  | .merkleMismatch => 409
  | .idConflict => 409
  | .storageError => 500

/-- The `missing_hashes` list computed by `create_bundle` (lines 39-42):
the hashes of the referenced files that have no stored blob, in file
order, with repetitions. -/
def missingOf (st : ServerState) (draft : BundleManifestDraft) :
    List (List Nat) :=
  (draft.files.filter fun f => !blob_exists st f.hash).map fun f => f.hash

/-- Model of `create_bundle` (`src/api/routes/create_bundle.py`).  The
referential-integrity gate (lines 38-47) runs first and fails with
`missingBlobs` touching nothing.  Past the gate, line 50 evaluates
`request.id`; `BundleManifestDraft` declares no `id` field
(`shared/api_contracts/create_bundle.py`), so the attribute access
raises `AttributeError`, which the blanket `except Exception` handler
(line 146) converts to HTTP 500.  Control therefore never reaches the
Merkle comparison (line 70) or the write section (lines 102-141), and
the state is returned unchanged. -/
def create_bundle (st : ServerState) (draft : BundleManifestDraft) :
    BundleResult × ServerState :=
  if !(missingOf st draft).isEmpty then (.missingBlobs (missingOf st draft), st)
  else (.storageError, st)

/-- Which of the four filesystem steps of the commit block succeed; a
`false` injects an I/O failure at that step. -/
structure WritePlan where
  manifestWriteOk : Bool
  manifestRenameOk : Bool
  summaryWriteOk : Bool
  summaryRenameOk : Bool
deriving DecidableEq

/-- The `except` cleanup of the commit block (lines 123-131): unlink the
manifest temp file, the summary temp file and the already-committed
manifest when they exist.  The summary final file is not touched (it can
only exist if every step succeeded). -/
def cleanupCommit (st : ServerState) (id : List Nat) : ServerState :=
  { st with
    mtmp := removeKey id st.mtmp,
    stmp := removeKey id st.stmp,
    manifests := removeKey id st.manifests }

/-- Model of the atomic-write commit block of `create_bundle` (lines
112-132): write `manifests/<id>.tmp`, rename it to
`manifests/<id>.json`, write `summaries/<id>.tmp`, rename it to
`summaries/<id>.json`; the first injected failure triggers the cleanup
and propagates (result `false`). -/
def commitBundle (st : ServerState) (id : List Nat) (m : Manifest)
    (s : Summary) (plan : WritePlan) : Bool × ServerState :=
  if !plan.manifestWriteOk then (false, cleanupCommit st id)
  else
    let st1 : ServerState := { st with mtmp := (id, m) :: st.mtmp }
    if !plan.manifestRenameOk then (false, cleanupCommit st1 id)
    else
      let st2 : ServerState := { st1 with
        mtmp := removeKey id st1.mtmp,
        manifests := (id, m) :: st1.manifests }
      if !plan.summaryWriteOk then (false, cleanupCommit st2 id)
      else
        let st3 : ServerState := { st2 with stmp := (id, s) :: st2.stmp }
        if !plan.summaryRenameOk then (false, cleanupCommit st3 id)
        else
          (true, { st3 with
            stmp := removeKey id st3.stmp,
            summaries := (id, s) :: st3.summaries })

/-! ### Listing (`src/api/routes/list_bundles.py`) -/

/-- Result of `GET /bundles`. -/
inductive ListResult where
  /-- HTTP 200 with the summaries page. -/
  | listOk (entries : List Summary)
  /-- HTTP 500, blanket `except Exception` handler. -/
  | listError
deriving DecidableEq

/-- HTTP status code of each listing outcome. -/
def ListResult.status : ListResult → Nat
  | .listOk _ => 200
  | .listError => 500

/-- Model of `list_bundles` (`src/api/routes/list_bundles.py`).  The
module-level imports already fail (`shared.config` defines none of
`SUMMARIES_DIR`, `MANIFESTS_DIR`, `PAGE_SIZE`, and
`shared.api_contracts.list_bundles` defines `BundleListResponse`, not
the imported `ListBundlesResponse`); granting the imports, the handler
returns the empty listing when the summaries directory is absent, and
otherwise line 39 reads the undefined local `summaries_dir`, a
`NameError` that the blanket `except Exception` converts to HTTP 500 —
the raw summary files are never read.  `rawSummaries` carries the bytes
of the files in `bundles/summaries/`. -/
def list_bundles (summariesDirPresent : Bool)
    (_rawSummaries : List (List Nat)) : ListResult :=
  if !summariesDirPresent then .listOk []
  else .listError

/-- Concrete digest function used to evaluate witnesses: a 32-byte
output whose every byte is the byte-sum of the input modulo 256. -/
def toySha (bs : List Nat) : List Nat :=
  List.replicate 32 (bs.foldl (fun a b => (a + b) % 256) 0)

/-- The byte string of the ASCII text `a.txt`. -/
def aPath : List Nat := [97, 46, 116, 120, 116]

/-- The byte string of the ASCII text `b.txt`. -/
def bPath : List Nat := [98, 46, 116, 120, 116]

/-- The byte string of the ASCII text `c.txt`. -/
def cPath : List Nat := [99, 46, 116, 120, 116]

/-- Empty server state: fresh data root. -/
def st0 : ServerState := ⟨[], [], [], [], [], []⟩

/-- A two-byte body used to evaluate witnesses. -/
def body0 : List Nat := [1, 2]

/-- The toy digest of `body0`, hex-encoded: a valid 64-hex hash. -/
def h0 : List Nat := bytesToHex (toySha body0)

/-- A valid 64-hex hash (64 times `a`) that matches no `toySha` digest
of the witness bodies. -/
def hMismatch : List Nat := List.replicate 64 97

/-- Server state with one stored blob, used as a concrete input. -/
def stBlob : ServerState := ⟨[(hMismatch, [1])], [], [], [], [], []⟩

/-- A schema-valid draft referencing the stored blob of `stBlob` with a
Merkle root (64 times `0`) that matches no digest. -/
def draftBad : BundleManifestDraft :=
  ⟨[⟨aPath, 1, hMismatch⟩], List.replicate 64 48⟩

/-- A draft referencing one never-uploaded hash. -/
def draftMissing : BundleManifestDraft :=
  ⟨[⟨aPath, 1, hMismatch⟩], List.replicate 64 48⟩

/-- A concrete manifest for the commit-block witness. -/
def m0 : Manifest := ⟨[49], [50], [], 0, 0, List.replicate 64 48⟩

/-- A concrete summary for the commit-block witness. -/
def s0 : Summary := ⟨[49], [50], 0, 0, List.replicate 64 48⟩

/-! ### Helper lemmas -/

theorem pairAdj_length (sha : List Nat → List Nat) :
    ∀ l : List (List Nat), (pairAdj sha l).length = l.length / 2
  | [] => by simp [pairAdj]
  | [x] => by simp [pairAdj]
  | a :: b :: r => by
    simp only [pairAdj, List.length_cons, pairAdj_length sha r]
    omega

theorem dupIfOdd_length (l : List (List Nat)) :
    (dupIfOdd l).length = l.length + l.length % 2 := by
  simp only [dupIfOdd, beq_iff_eq]
  split
  · rename_i hodd
    simp only [List.length_append, List.length_cons, List.length_nil]
    omega
  · rename_i hodd
    have := Nat.mod_two_eq_zero_or_one l.length
    omega

theorem merkleRounds_headD (sha : List Nat → List Nat) :
    ∀ fuel (l : List (List Nat)), l ≠ [] → l.length ≤ fuel + 1 →
      (merkleRounds sha fuel l).headD [] = specCombine sha l := by
  intro fuel
  induction fuel with
  | zero =>
    intro l hne hlen
    rcases l with _ | ⟨d, _ | ⟨x, r⟩⟩
    · exact absurd rfl hne
    · simp [merkleRounds, specCombine]
    · simp only [List.length_cons] at hlen
      omega
  | succ fuel ih =>
    intro l hne hlen
    rcases l with _ | ⟨d, _ | ⟨x, r⟩⟩
    · exact absurd rfl hne
    · simp [merkleRounds, specCombine]
    · have hstep : merkleRounds sha (fuel + 1) (d :: x :: r) =
          merkleRounds sha fuel (pairAdj sha (dupIfOdd (d :: x :: r))) := by
        simp only [merkleRounds, List.length_cons]
        rw [if_neg (by omega)]
      have hplen : (pairAdj sha (dupIfOdd (d :: x :: r))).length =
          ((d :: x :: r).length + (d :: x :: r).length % 2) / 2 := by
        rw [pairAdj_length, dupIfOdd_length]
      have hne2 : pairAdj sha (dupIfOdd (d :: x :: r)) ≠ [] := by
        intro hc
        rw [hc] at hplen
        simp only [List.length_nil, List.length_cons] at hplen
        omega
      have hle2 : (pairAdj sha (dupIfOdd (d :: x :: r))).length ≤ fuel + 1 := by
        simp only [List.length_cons] at hplen hlen ⊢
        omega
      rw [hstep, ih _ hne2 hle2]
      conv_rhs => rw [specCombine]

theorem assocFind_removeKey {α : Type} (k : List Nat) (l : List (List Nat × α)) :
    assocFind k (removeKey k l) = none := by
  induction l with
  | nil => rfl
  | cons kv rest ih =>
    simp only [removeKey, List.filter_cons, ne_eq, decide_not] at ih ⊢
    by_cases hk : kv.1 = k
    · simp [hk, ih]
    · rw [if_pos (by simp [hk])]
      simp only [assocFind, if_neg hk]
      exact ih

theorem upload_blob_created (sha : List Nat → List Nat) (maxB : Nat)
    (st : ServerState) (h : List Nat) (size : Nat) (tn body : List Nat)
    (hv : validate_sha256_hash h = true) (hsz : size ≤ maxB)
    (hnew : blob_exists st h = false) (hd : bytesToHex (sha body) = h) :
    upload_blob sha maxB st h size tn body =
      (.createdNew, { st with
        blobs := (h, body) :: st.blobs,
        tmp := removeKey tn ((tn, body) :: st.tmp) }) := by
  simp [upload_blob, hv, hnew, hd, show ¬ maxB < size from by omega]

theorem upload_blob_mismatch (sha : List Nat → List Nat) (maxB : Nat)
    (st : ServerState) (h : List Nat) (size : Nat) (tn body : List Nat)
    (hv : validate_sha256_hash h = true) (hsz : size ≤ maxB)
    (hnew : blob_exists st h = false) (hd : bytesToHex (sha body) ≠ h) :
    upload_blob sha maxB st h size tn body =
      (.hashMismatch, { st with tmp := removeKey tn ((tn, body) :: st.tmp) }) := by
  simp [upload_blob, hv, hnew, hd, show ¬ maxB < size from by omega]

theorem blob_exists_after_insert (st : ServerState) (h body : List Nat)
    (tmp2 : List (List Nat × List Nat)) :
    blob_exists { st with blobs := (h, body) :: st.blobs, tmp := tmp2 } h = true := by
  simp [blob_exists, blobFileAt, assocFind]

/-! ### Claim theorems -/

/-- C1: for every list of file entries the computed Merkle root equals
the reference definition — one leaf digest of `path ++ ":" ++ hash` per
entry, leaves sorted by path ascending, adjacent digests paired level by
level with the last digest duplicated at odd levels, each parent the
digest of the concatenated pair, the final digest hex-encoded; and on
the three entries `a.txt`/`b.txt`/`c.txt` with hashes `aa..a`, `bb..b`,
`cc..c` the root is the hex of
`SHA256(SHA256(L_a ++ L_b) ++ SHA256(L_c ++ L_c))`. -/
theorem merkle_root_matches_reference (sha : List Nat → List Nat) :
    (∀ blobs : List FileEntry,
      compute_merkle_root sha blobs = specMerkleRoot sha blobs)
    ∧ compute_merkle_root sha
        [⟨aPath, 1, List.replicate 64 97⟩,
         ⟨bPath, 1, List.replicate 64 98⟩,
         ⟨cPath, 1, List.replicate 64 99⟩] =
      bytesToHex (sha
        (sha (sha (aPath ++ [58] ++ List.replicate 64 97) ++
              sha (bPath ++ [58] ++ List.replicate 64 98)) ++
         sha (sha (cPath ++ [58] ++ List.replicate 64 99) ++
              sha (cPath ++ [58] ++ List.replicate 64 99)))) := by
  constructor
  · intro blobs
    unfold compute_merkle_root specMerkleRoot
    by_cases hE :
        ((sortByPath (blobs.map fun b => (b.bundle_path, b.hash))).map
          fun p => sha (p.1 ++ [58] ++ p.2)) = []
    · simp only [hE]
      simp [specCombine]
    · simp only []
      rw [if_neg (by simpa [List.isEmpty_iff] using hE)]
      rw [merkleRounds_headD sha _ _ hE (by omega)]
  · simp [compute_merkle_root, sortByPath, insertByPath, bytesLe,
      merkleRounds, dupIfOdd, pairAdj, aPath, bPath, cPath]

/-- C6: the Merkle root of the empty entry list is the hex SHA-256 of
the empty byte string, and the root of a single-entry list is the hex of
that entry's own leaf digest — the duplicate-and-hash pairing step runs
only when more than one leaf exists. -/
theorem merkle_root_edge_cases (sha : List Nat → List Nat) :
    compute_merkle_root sha [] = bytesToHex (sha [])
    ∧ ∀ e : FileEntry,
        compute_merkle_root sha [e] =
          bytesToHex (sha (e.bundle_path ++ [58] ++ e.hash)) := by
  exact ⟨rfl, fun e => rfl⟩

/-- Handler-body lemma: the upload logic as written is idempotent — for
a valid 64-hex hash whose digest matches the body, with the declared
size within the limit and starting from a state where the blob is not
yet stored, the first call returns Created (201), the second returns
Exists (200), and the bytes at the blob's final fan-out path after the
second call are byte-equal to those after the first. -/
theorem blob_upload_idempotent (sha : List Nat → List Nat) (maxB : Nat)
    (st : ServerState) (h : List Nat) (size : Nat) (t1 t2 body : List Nat)
    (hv : validate_sha256_hash h = true) (hsz : size ≤ maxB)
    (hd : bytesToHex (sha body) = h) (hnew : blob_exists st h = false) :
    (upload_blob sha maxB st h size t1 body).1 = BlobResult.createdNew
    ∧ (upload_blob sha maxB (upload_blob sha maxB st h size t1 body).2
        h size t2 body).1 = BlobResult.alreadyStored
    ∧ BlobResult.status BlobResult.createdNew = 201
    ∧ BlobResult.status BlobResult.alreadyStored = 200
    ∧ blobFileAt (upload_blob sha maxB (upload_blob sha maxB st h size t1 body).2
        h size t2 body).2 (to_blob_path h) = some body
    ∧ blobFileAt (upload_blob sha maxB (upload_blob sha maxB st h size t1 body).2
          h size t2 body).2 (to_blob_path h) =
        blobFileAt (upload_blob sha maxB st h size t1 body).2 (to_blob_path h) := by
  have h1 := upload_blob_created sha maxB st h size t1 body hv hsz hnew hd
  set st1 : ServerState := { st with
    blobs := (h, body) :: st.blobs,
    tmp := removeKey t1 ((t1, body) :: st.tmp) } with hst1
  have hex : blob_exists st1 h = true := blob_exists_after_insert st h body _
  have h2 : upload_blob sha maxB st1 h size t2 body = (.alreadyStored, st1) := by
    simp [upload_blob, hv, hex, show ¬ maxB < size from by omega]
  have hat : blobFileAt st1 (to_blob_path h) = some body := by
    simp [blobFileAt, assocFind, hst1]
  simp [h1, h2, hat, BlobResult.status]

theorem blob_upload_idempotent_witness :
    validate_sha256_hash h0 = true
    ∧ 2 ≤ 10
    ∧ bytesToHex (toySha body0) = h0
    ∧ blob_exists st0 h0 = false
    ∧ (upload_blob toySha 10 st0 h0 2 [116] body0).1 = BlobResult.createdNew
    ∧ (upload_blob toySha 10 (upload_blob toySha 10 st0 h0 2 [116] body0).2
        h0 2 [117] body0).1 = BlobResult.alreadyStored :=
  have hmain := blob_upload_idempotent toySha 10 st0 h0 2 [116] [117] body0
    (by decide) (by decide) (by decide) (by decide)
  ⟨by decide, by decide, by decide, by decide, hmain.1, hmain.2.1⟩

/-- Handler-body lemma: when the streamed digest differs from the
URL-declared hash (the hash being valid, the declared size within the
limit and the blob not yet stored), the upload logic as written fails
with HashMismatch (409), the temp file is unlinked, the stored blobs are
untouched and no file exists at the hash's final fan-out path. -/
theorem blob_upload_hash_mismatch (sha : List Nat → List Nat) (maxB : Nat)
    (st : ServerState) (h : List Nat) (size : Nat) (tn body : List Nat)
    (hv : validate_sha256_hash h = true) (hsz : size ≤ maxB)
    (hnew : blob_exists st h = false) (hmm : bytesToHex (sha body) ≠ h) :
    (upload_blob sha maxB st h size tn body).1 = BlobResult.hashMismatch
    ∧ BlobResult.status BlobResult.hashMismatch = 409
    ∧ assocFind tn (upload_blob sha maxB st h size tn body).2.tmp = none
    ∧ (upload_blob sha maxB st h size tn body).2.blobs = st.blobs
    ∧ blobFileAt (upload_blob sha maxB st h size tn body).2 (to_blob_path h) = none := by
  have h1 := upload_blob_mismatch sha maxB st h size tn body hv hsz hnew hmm
  have hnone : blobFileAt st (to_blob_path h) = none := by
    have := hnew
    simp only [blob_exists] at this
    cases hc : blobFileAt st (to_blob_path h) with
    | none => rfl
    | some v => rw [hc] at this; simp at this
  have hfind : assocFind tn (removeKey tn ((tn, body) :: st.tmp)) = none :=
    assocFind_removeKey tn ((tn, body) :: st.tmp)
  have hsame : blobFileAt { st with tmp := removeKey tn ((tn, body) :: st.tmp) }
      (to_blob_path h) = blobFileAt st (to_blob_path h) := rfl
  simp [h1, BlobResult.status, hfind, hsame, hnone]

theorem blob_upload_hash_mismatch_witness :
    validate_sha256_hash hMismatch = true
    ∧ 2 ≤ 10
    ∧ blob_exists st0 hMismatch = false
    ∧ bytesToHex (toySha body0) ≠ hMismatch
    ∧ (upload_blob toySha 10 st0 hMismatch 2 [116] body0).1 =
        BlobResult.hashMismatch
    ∧ assocFind [116] (upload_blob toySha 10 st0 hMismatch 2 [116] body0).2.tmp =
        none
    ∧ blobFileAt (upload_blob toySha 10 st0 hMismatch 2 [116] body0).2
        (to_blob_path hMismatch) = none :=
  have hmain := blob_upload_hash_mismatch toySha 10 st0 hMismatch 2 [116] body0
    (by decide) (by decide) (by decide) (by decide)
  ⟨by decide, by decide, by decide, by decide, hmain.1, hmain.2.2.1, hmain.2.2.2.2⟩

/-- Handler-body lemma: in the upload logic as written, for a valid
hash, a declared size strictly greater than the configured maximum is
rejected with TooLarge (413) with the state unchanged and the same
answer whatever the body (no byte read, nothing written), while a
declared size exactly equal to the maximum passes the size check — with
a matching digest on a not-yet-stored blob the call returns Created. -/
theorem blob_upload_size_gate (sha : List Nat → List Nat) (maxB : Nat)
    (st : ServerState) (h tn : List Nat)
    (hv : validate_sha256_hash h = true) :
    (∀ size body, maxB < size →
      upload_blob sha maxB st h size tn body = (BlobResult.tooLarge, st))
    ∧ BlobResult.status BlobResult.tooLarge = 413
    ∧ (∀ body, blob_exists st h = false → bytesToHex (sha body) = h →
        (upload_blob sha maxB st h maxB tn body).1 = BlobResult.createdNew) := by
  refine ⟨?_, rfl, ?_⟩
  · intro size body hbig
    simp [upload_blob, hv, hbig]
  · intro body hnew hd
    rw [upload_blob_created sha maxB st h maxB tn body hv le_rfl hnew hd]

theorem blob_upload_size_gate_witness :
    validate_sha256_hash h0 = true
    ∧ upload_blob toySha 5 st0 h0 6 [116] body0 = (BlobResult.tooLarge, st0)
    ∧ (upload_blob toySha 5 st0 h0 5 [116] body0).1 = BlobResult.createdNew :=
  have hmain := blob_upload_size_gate toySha 5 st0 h0 [116] (by decide)
  ⟨by decide, hmain.1 6 body0 (by decide), hmain.2.2 body0 (by decide) (by decide)⟩

/-- Handler-body lemma: in the upload logic as written, success is
decided solely by digest equality, never by the declared size — any body
whose digest matches the URL hash is stored in full and answered
Created, with no constraint tying the body's actual length to the
declared size, and the outcome is the same for every declared size
within the limit. -/
theorem blob_upload_ignores_declared_size (sha : List Nat → List Nat)
    (maxB : Nat) (st : ServerState) (h : List Nat) (size : Nat)
    (tn body : List Nat)
    (hv : validate_sha256_hash h = true) (hsz : size ≤ maxB)
    (hnew : blob_exists st h = false) (hd : bytesToHex (sha body) = h) :
    (upload_blob sha maxB st h size tn body).1 = BlobResult.createdNew
    ∧ blobFileAt (upload_blob sha maxB st h size tn body).2 (to_blob_path h) =
        some body
    ∧ (∀ size2, size2 ≤ maxB →
        upload_blob sha maxB st h size2 tn body =
          upload_blob sha maxB st h size tn body) := by
  have h1 := upload_blob_created sha maxB st h size tn body hv hsz hnew hd
  refine ⟨by simp [h1], ?_, ?_⟩
  · rw [h1]
    simp [blobFileAt, assocFind]
  · intro size2 hsz2
    rw [h1, upload_blob_created sha maxB st h size2 tn body hv hsz2 hnew hd]

theorem blob_upload_ignores_declared_size_witness :
    validate_sha256_hash h0 = true
    ∧ 1 ≤ 1
    ∧ blob_exists st0 h0 = false
    ∧ bytesToHex (toySha body0) = h0
    ∧ List.length body0 > 1
    ∧ (upload_blob toySha 1 st0 h0 1 [116] body0).1 = BlobResult.createdNew
    ∧ blobFileAt (upload_blob toySha 1 st0 h0 1 [116] body0).2
        (to_blob_path h0) = some body0 :=
  have hmain := blob_upload_ignores_declared_size toySha 1 st0 h0 1 [116] body0
    (by decide) (by decide) (by decide) (by decide)
  ⟨by decide, by decide, by decide, by decide, by decide, hmain.1, hmain.2.1⟩

/-- C5: a draft referencing at least one hash with no stored blob fails
with MissingBlobs (409), the reported list containing exactly the absent
referenced hashes, and no manifest or summary is written. -/
theorem create_bundle_missing_blobs (st : ServerState)
    (draft : BundleManifestDraft) (hmiss : missingOf st draft ≠ []) :
    create_bundle st draft =
      (BundleResult.missingBlobs (missingOf st draft), st)
    ∧ BundleResult.status (BundleResult.missingBlobs (missingOf st draft)) = 409
    ∧ (∀ h, h ∈ missingOf st draft ↔
        ((∃ f ∈ draft.files, f.hash = h) ∧ blob_exists st h = false))
    ∧ (create_bundle st draft).2.manifests = st.manifests
    ∧ (create_bundle st draft).2.summaries = st.summaries := by
  have hc : create_bundle st draft =
      (BundleResult.missingBlobs (missingOf st draft), st) := by
    simp [create_bundle, hmiss, List.isEmpty_iff]
  refine ⟨hc, rfl, ?_, by rw [hc], by rw [hc]⟩
  intro h
  simp only [missingOf, List.mem_map, List.mem_filter, Bool.not_eq_true']
  constructor
  · rintro ⟨f, ⟨hf, hex⟩, hh⟩
    exact ⟨⟨f, hf, hh⟩, hh ▸ hex⟩
  · rintro ⟨⟨f, hf, hh⟩, hex⟩
    exact ⟨f, ⟨hf, hh ▸ hex⟩, hh⟩

theorem create_bundle_missing_blobs_witness :
    missingOf st0 draftMissing ≠ []
    ∧ create_bundle st0 draftMissing =
        (BundleResult.missingBlobs [hMismatch], st0)
    ∧ (hMismatch ∈ missingOf st0 draftMissing ↔
        ((∃ f ∈ draftMissing.files, f.hash = hMismatch) ∧
          blob_exists st0 hMismatch = false)) :=
  have hmain := create_bundle_missing_blobs st0 draftMissing (by decide)
  ⟨by decide, by decide, hmain.2.2.1 hMismatch⟩

set_option maxRecDepth 8192 in
/-- C2: code evidence — on a schema-valid draft whose referenced blobs
are all stored and whose Merkle root cannot match the server-recomputed
one, `POST /bundles` answers the blanket 500 storage error with nothing
written, never the 409 Merkle mismatch: line 50 of `create_bundle`
evaluates `request.id`, a field `BundleManifestDraft` does not declare,
and the `AttributeError` is swallowed by the blanket handler before the
Merkle comparison runs. -/
theorem create_bundle_merkle_mismatch_gives_500 :
    draftValid draftBad = true
    ∧ missingOf stBlob draftBad = []
    ∧ compute_merkle_root toySha draftBad.files ≠ draftBad.merkle_root
    ∧ create_bundle stBlob draftBad = (BundleResult.storageError, stBlob)
    ∧ BundleResult.status BundleResult.storageError = 500
    ∧ (create_bundle stBlob draftBad).1 ≠ BundleResult.merkleMismatch := by
  refine ⟨by decide, by decide, ?_, by decide, rfl, by decide⟩
  decide

/-- C8: manifest and summary files exist together — the commit block,
run for a bundle id with no committed summary, ends with the id having
either both a manifest and a summary or neither, whichever filesystem
step fails; in particular a summary-write failure after the manifest
rename unlinks the already-committed manifest before the error
propagates; and the `POST /bundles` endpoint as a whole returns the
stored files unchanged on every input, so the invariant survives every
request outcome. -/
theorem bundle_commit_atomic (st : ServerState) (id : List Nat)
    (m : Manifest) (s : Summary) (plan : WritePlan)
    (hs : assocFind id st.summaries = none) :
    ((assocFind id (commitBundle st id m s plan).2.manifests).isSome ↔
      (assocFind id (commitBundle st id m s plan).2.summaries).isSome)
    ∧ (plan.manifestWriteOk = true → plan.manifestRenameOk = true →
        plan.summaryWriteOk = false →
        (commitBundle st id m s plan).1 = false ∧
        assocFind id (commitBundle st id m s plan).2.manifests = none)
    ∧ (∀ draft : BundleManifestDraft, (create_bundle st draft).2 = st) := by
  refine ⟨?_, ?_, ?_⟩
  · rcases plan with ⟨mw, mr, sw, sr⟩
    cases mw <;> cases mr <;> cases sw <;> cases sr <;>
      simp [commitBundle, cleanupCommit, assocFind_removeKey, hs, assocFind]
  · rcases plan with ⟨mw, mr, sw, sr⟩
    intro hmw hmr hsw
    subst hmw hmr hsw
    cases sr <;>
      simp [commitBundle, cleanupCommit, assocFind_removeKey, assocFind]
  · intro draft
    unfold create_bundle
    split <;> rfl

theorem bundle_commit_atomic_witness :
    assocFind [49] st0.summaries = none
    ∧ ((assocFind [49]
          (commitBundle st0 [49] m0 s0 ⟨true, true, false, true⟩).2.manifests).isSome ↔
        (assocFind [49]
          (commitBundle st0 [49] m0 s0 ⟨true, true, false, true⟩).2.summaries).isSome)
    ∧ ((commitBundle st0 [49] m0 s0 ⟨true, true, false, true⟩).1 = false ∧
        assocFind [49]
          (commitBundle st0 [49] m0 s0 ⟨true, true, false, true⟩).2.manifests = none) :=
  have hmain := bundle_commit_atomic st0 [49] m0 s0 ⟨true, true, false, true⟩ (by decide)
  ⟨by decide, hmain.1, hmain.2.1 rfl rfl rfl⟩

/-- C9: code evidence — whenever the summaries directory is present the
listing endpoint answers 500, whatever summary files (valid or corrupt)
are on disk, so it never returns 200 with the valid entries: the handler
reads the undefined local `summaries_dir` (and the module's imports of
`SUMMARIES_DIR`, `MANIFESTS_DIR`, `PAGE_SIZE` and `ListBundlesResponse`
do not even resolve). -/
theorem list_bundles_broken_when_dir_present :
    (∀ raw : List (List Nat), list_bundles true raw = ListResult.listError)
    ∧ ListResult.status ListResult.listError = 500
    ∧ (∀ entries, ListResult.listError ≠ ListResult.listOk entries) :=
  ⟨fun _ => rfl, rfl, fun entries => by simp⟩

set_option maxRecDepth 8192 in
/-- C3: code evidence — the shipped route answers no request at all
(`create_blob.py` fails at `from shared.config import TMP_DIR, ...`, so
the handler is never registered and a PUT of `body0` under its own hash
can never return 201 then 200), while the handler body as written does
implement the claimed idempotence at that very input. -/
theorem blob_idempotence_unattainable :
    (∀ (st : ServerState) (h : List Nat) (size : Nat) (tn body : List Nat),
      upload_blob_served st h size tn body = none)
    ∧ (upload_blob toySha 10 st0 h0 2 [116] body0).1 = BlobResult.createdNew
    ∧ (upload_blob toySha 10 (upload_blob toySha 10 st0 h0 2 [116] body0).2
        h0 2 [117] body0).1 = BlobResult.alreadyStored
    ∧ blobFileAt (upload_blob toySha 10 (upload_blob toySha 10 st0 h0 2 [116] body0).2
        h0 2 [117] body0).2 (to_blob_path h0) = some body0 :=
  ⟨fun _ _ _ _ _ => rfl, by decide, by decide, by decide⟩

set_option maxRecDepth 8192 in
/-- C4: code evidence — the shipped route answers no request at all
(`create_blob.py` fails at `from shared.config import TMP_DIR, ...`), so
a mismatched upload can never be answered 409, while the handler body as
written does implement the claimed mismatch handling at the concrete
input: HashMismatch, temp file gone, nothing at the fan-out path. -/
theorem blob_hash_mismatch_unattainable :
    (∀ (st : ServerState) (h : List Nat) (size : Nat) (tn body : List Nat),
      upload_blob_served st h size tn body = none)
    ∧ (upload_blob toySha 10 st0 hMismatch 2 [116] body0).1 =
        BlobResult.hashMismatch
    ∧ assocFind [116] (upload_blob toySha 10 st0 hMismatch 2 [116] body0).2.tmp =
        none
    ∧ blobFileAt (upload_blob toySha 10 st0 hMismatch 2 [116] body0).2
        (to_blob_path hMismatch) = none :=
  ⟨fun _ _ _ _ _ => rfl, by decide, by decide, by decide⟩

set_option maxRecDepth 8192 in
/-- C7: code evidence — the shipped route answers no request at all
(`create_blob.py` fails at `from shared.config import TMP_DIR, ...`), so
neither the 413 rejection of an over-limit declared size nor the
at-limit success can occur, while the handler body as written does
implement both at the concrete inputs (maximum 5: declared size 6 is
TooLarge with the state unchanged, declared size 5 is Created). -/
theorem blob_size_gate_unattainable :
    (∀ (st : ServerState) (h : List Nat) (size : Nat) (tn body : List Nat),
      upload_blob_served st h size tn body = none)
    ∧ upload_blob toySha 5 st0 h0 6 [116] body0 = (BlobResult.tooLarge, st0)
    ∧ (upload_blob toySha 5 st0 h0 5 [116] body0).1 = BlobResult.createdNew :=
  ⟨fun _ _ _ _ _ => rfl, by decide, by decide⟩

set_option maxRecDepth 8192 in
/-- C10: code evidence — the shipped route answers no request at all
(`create_blob.py` fails at `from shared.config import TMP_DIR, ...`), so
the size-ignoring storage behavior can never be exercised, while the
handler body as written does implement it at the concrete input: a
2-byte body declared as 1 byte under limit 1 is stored in full and
answered Created, its received length never compared to the declared
size. -/
theorem blob_digest_only_unattainable :
    (∀ (st : ServerState) (h : List Nat) (size : Nat) (tn body : List Nat),
      upload_blob_served st h size tn body = none)
    ∧ List.length body0 > 1
    ∧ (upload_blob toySha 1 st0 h0 1 [116] body0).1 = BlobResult.createdNew
    ∧ blobFileAt (upload_blob toySha 1 st0 h0 1 [116] body0).2
        (to_blob_path h0) = some body0 :=
  ⟨fun _ _ _ _ _ => rfl, by decide, by decide, by decide⟩

end FalBundle
